import Mathlib

/-!
Formal model of the SaaS backend in `main.py`: the HTTP endpoint handlers
(plans, signup, login, blog create/list, contact submit, database
diagnostic), a document-database persistence layer modelled from the spec
(`create_document`, `get_documents`), and the SHA-256 digest used by the
signup handler (Python `hashlib.sha256(...).hexdigest()`, FIPS 180-4).
Handlers are embedded as pure functions over an explicit database state;
a persistence fault is injected through an `Option String` argument and
surfaces exactly where the Python `try/except` blocks catch it.
-/

namespace Backend

/-! ## SHA-256 (FIPS 180-4), as computed by `hashlib.sha256(...).hexdigest()` -/

/-- 2^32, the word modulus of SHA-256. -/
def M32 : Nat := 4294967296

/-- Right-rotation of a 32-bit word by `n` places. -/
def rotR (n x : Nat) : Nat := x / 2 ^ n + x % 2 ^ n * 2 ^ (32 - n)

/-- Bitwise complement of a 32-bit word. -/
def compl32 (x : Nat) : Nat := Nat.xor x (M32 - 1)

/-- SHA-256 choice function. -/
def ch (x y z : Nat) : Nat := Nat.xor (Nat.land x y) (Nat.land (compl32 x) z)

/-- SHA-256 majority function. -/
def maj (x y z : Nat) : Nat :=
  Nat.xor (Nat.land x y) (Nat.xor (Nat.land x z) (Nat.land y z))

/-- Big sigma-0. -/
def bigS0 (x : Nat) : Nat := Nat.xor (rotR 2 x) (Nat.xor (rotR 13 x) (rotR 22 x))

/-- Big sigma-1. -/
def bigS1 (x : Nat) : Nat := Nat.xor (rotR 6 x) (Nat.xor (rotR 11 x) (rotR 25 x))

/-- Small sigma-0. -/
def smallS0 (x : Nat) : Nat := Nat.xor (rotR 7 x) (Nat.xor (rotR 18 x) (x / 2 ^ 3))

/-- Small sigma-1. -/
def smallS1 (x : Nat) : Nat := Nat.xor (rotR 17 x) (Nat.xor (rotR 19 x) (x / 2 ^ 10))

/-- The 64 SHA-256 round constants (FIPS 180-4 section 4.2.2, in decimal). -/
def K256 : List Nat :=
  [1116352408, 1899447441, 3049323471, 3921009573, 961987163, 1508970993,
   2453635748, 2870763221, 3624381080, 310598401, 607225278, 1426881987,
   1925078388, 2162078206, 2614888103, 3248222580, 3835390401, 4022224774,
   264347078, 604807628, 770255983, 1249150122, 1555081692, 1996064986,
   2554220882, 2821834349, 2952996808, 3210313671, 3336571891, 3584528711,
   113926993, 338241895, 666307205, 773529912, 1294757372, 1396182291,
   1695183700, 1986661051, 2177026350, 2456956037, 2730485921, 2820302411,
   3259730800, 3345764771, 3516065817, 3600352804, 4094571909, 275423344,
   430227734, 506948616, 659060556, 883997877, 958139571, 1322822218,
   1537002063, 1747873779, 1955562222, 2024104815, 2227730452, 2361852424,
   2428436474, 2756734187, 3204031479, 3329325298]

/-- The eight 32-bit words of a SHA-256 state. -/
structure Hash where
  a : Nat
  b : Nat
  c : Nat
  d : Nat
  e : Nat
  f : Nat
  g : Nat
  h : Nat
deriving Repr, DecidableEq

/-- Initial SHA-256 state (FIPS 180-4 section 5.3.3, in decimal). -/
def H0 : Hash :=
  ⟨1779033703, 3144134277, 1013904242, 2773480762,
   1359893119, 2600822924, 528734635, 1541459225⟩

/-- One SHA-256 compression round with round constant `k` and schedule word `w`. -/
def sha256Round (s : Hash) (kw : Nat × Nat) : Hash :=
  let t1 := (s.h + bigS1 s.e + ch s.e s.f s.g + kw.1 + kw.2) % M32
  let t2 := (bigS0 s.a + maj s.a s.b s.c) % M32
  ⟨(t1 + t2) % M32, s.a, s.b, s.c, (s.d + t1) % M32, s.e, s.f, s.g⟩

/-- Extend a message schedule by `n` further words. -/
def extendSchedule (w : List Nat) : Nat → List Nat
  | 0 => w
  | n + 1 =>
    let l := w.length
    extendSchedule
      (w ++ [(smallS1 (w.getD (l - 2) 0) + w.getD (l - 7) 0 +
              smallS0 (w.getD (l - 15) 0) + w.getD (l - 16) 0) % M32]) n

/-- Group a byte list into big-endian 32-bit words. -/
def bytesToWords : List Nat → List Nat
  | a :: b :: c :: d :: rest => (((a * 256 + b) * 256 + c) * 256 + d) :: bytesToWords rest
  | _ => []

/-- Big-endian byte expansion of `n` into exactly `len` bytes. -/
def beBytes : Nat → Nat → List Nat
  | 0, _ => []
  | l + 1, n => beBytes l (n / 256) ++ [n % 256]

/-- SHA-256 padding: append `0x80`, zeros, and the 64-bit bit length. -/
def sha256Pad (m : List Nat) : List Nat :=
  m ++ [0x80] ++ List.replicate ((119 - m.length % 64) % 64) 0 ++ beBytes 8 (8 * m.length)

/-- Split a byte list into 64-byte blocks; the fuel argument (any bound on
the block count, the list length suffices) keeps the recursion structural. -/
def toBlocks : Nat → List Nat → List (List Nat)
  | 0, _ => []
  | _, [] => []
  | fuel + 1, a :: rest => (a :: rest).take 64 :: toBlocks fuel ((a :: rest).drop 64)

/-- Compress one 64-byte block into the running state. -/
def compressBlock (s : Hash) (block : List Nat) : Hash :=
  let w := extendSchedule (bytesToWords block) 48
  let t := (K256.zip w).foldl sha256Round s
  ⟨(s.a + t.a) % M32, (s.b + t.b) % M32, (s.c + t.c) % M32, (s.d + t.d) % M32,
   (s.e + t.e) % M32, (s.f + t.f) % M32, (s.g + t.g) % M32, (s.h + t.h) % M32⟩

/-- SHA-256 digest of a byte message, as eight 32-bit words. -/
def sha256Digest (msg : List Nat) : Hash :=
  let padded := sha256Pad msg
  (toBlocks padded.length padded).foldl compressBlock H0

/-- UTF-8 encoding of one character (Python `str.encode()`). -/
def utf8Bytes (c : Char) : List Nat :=
  let n := c.toNat
  if n < 0x80 then [n]
  else if n < 0x800 then [0xc0 + n / 64, 0x80 + n % 64]
  else if n < 0x10000 then [0xe0 + n / 4096, 0x80 + n / 64 % 64, 0x80 + n % 64]
  else [0xf0 + n / 0x40000, 0x80 + n / 4096 % 64, 0x80 + n / 64 % 64, 0x80 + n % 64]

/-- UTF-8 byte sequence of a string. -/
def strBytes (s : String) : List Nat := s.data.flatMap utf8Bytes

/-- Lower-case hexadecimal digit for `n < 16`. -/
def hexDigit (n : Nat) : Char := if n < 10 then Char.ofNat (48 + n) else Char.ofNat (87 + n)

/-- Fixed-width lower-case hexadecimal rendering of `n` with `len` digits. -/
def toHexFixed : Nat → Nat → List Char
  | 0, _ => []
  | l + 1, n => toHexFixed l (n / 16) ++ [hexDigit (n % 16)]

/-- `hashlib.sha256(s.encode()).hexdigest()`: the 64-character lower-case
hexadecimal SHA-256 digest of the UTF-8 encoding of `s`. -/
def sha256Hex (s : String) : String :=
  let d := sha256Digest (strBytes s)
  String.mk (([d.a, d.b, d.c, d.d, d.e, d.f, d.g, d.h]).flatMap (toHexFixed 8))

/-! ## Document values, documents and the database state

Modelled from the spec: the external document database behind
`create_document` / `get_documents` stores records ("documents") of
string-keyed fields; each stored record carries a system-generated native
key under `_id`. Field values occurring in this backend are strings,
booleans, lists of strings (blog tags) and null (absent optional excerpt). -/

inductive Value where
  | str : String → Value
  | bool : Bool → Value
  | strList : List String → Value
  | null : Value
deriving Repr, DecidableEq

/-- A document: an ordered association list of fields, unique keys. -/
abbrev Doc := List (String × Value)

/-- First value stored under key `k`, if any. -/
def Doc.lookup (d : Doc) (k : String) : Option Value :=
  match d with
  | [] => none
  | (k', v) :: rest => if k' = k then some v else Doc.lookup rest k

/-- A document matches a filter iff every filter field is present with
exactly the filter's value (the equality-match subset of Mongo filters,
the only kind this backend issues). -/
def matchesFilter (filter : Doc) (d : Doc) : Bool :=
  filter.all fun kv => d.lookup kv.1 == some kv.2

/-- Database state: the stored (collection, document) pairs in insertion
order, plus the counter generating fresh native keys. -/
structure DB where
  docs : List (String × Doc)
  counter : Nat
deriving Repr, DecidableEq

/-- Modelled from the spec: `create_document(collection, record) -> id`
(from `database.py`, not under `src/`). Stores the record in the named
collection under a fresh system-generated native key `_id` and returns
that key as a string. -/
def create_document (coll : String) (rec : Doc) (db : DB) : String × DB :=
  let id := toString db.counter
  (id, ⟨db.docs ++ [(coll, ("_id", Value.str id) :: rec)], db.counter + 1⟩)

/-- Modelled from the spec: `get_documents(collection, filter, limit) ->
list of records` (from `database.py`, not under `src/`). Returns the
stored records of the named collection that match the filter, in insertion
order, truncated to at most `limit` records. -/
def get_documents (coll : String) (filter : Doc) (limit : Nat) (db : DB) : List Doc :=
  (((db.docs.filter fun cd => cd.1 == coll).map fun cd => cd.2).filter
    fun d => matchesFilter filter d).take limit

/-! ## Schemas (modelled from the spec's data-model table; `schemas.py` is
not under `src/`) and request payloads (from `main.py`). -/

/-- Modelled from the spec: `User` record shape. -/
structure User where
  name : String
  email : String
  password_hash : String
deriving Repr, DecidableEq

/-- The document stored for a `User`. -/
def User.toDoc (u : User) : Doc :=
  [("name", Value.str u.name), ("email", Value.str u.email),
   ("password_hash", Value.str u.password_hash)]

/-- Modelled from the spec: `BlogPost` record shape. -/
structure BlogPost where
  title : String
  slug : String
  content : String
  excerpt : Option String
  author : String
  tags : List String
  published : Bool
deriving Repr, DecidableEq

/-- The document stored for a `BlogPost`; an absent excerpt is stored as null. -/
def BlogPost.toDoc (p : BlogPost) : Doc :=
  [("title", Value.str p.title), ("slug", Value.str p.slug),
   ("content", Value.str p.content),
   ("excerpt", match p.excerpt with | some e => Value.str e | none => Value.null),
   ("author", Value.str p.author), ("tags", Value.strList p.tags),
   ("published", Value.bool p.published)]

/-- Modelled from the spec: `ContactMessage` record shape. -/
structure ContactMessage where
  name : String
  email : String
  message : String
deriving Repr, DecidableEq

/-- The document stored for a `ContactMessage`. -/
def ContactMessage.toDoc (m : ContactMessage) : Doc :=
  [("name", Value.str m.name), ("email", Value.str m.email),
   ("message", Value.str m.message)]

/-- `SignupPayload` (main.py): name, email, password, all required strings. -/
structure SignupPayload where
  name : String
  email : String
  password : String
deriving Repr, DecidableEq

/-- `LoginPayload` (main.py): email and password, both required strings. -/
structure LoginPayload where
  email : String
  password : String
deriving Repr, DecidableEq

/-- `BlogCreatePayload` (main.py). In the source `excerpt` defaults to
`None`, `tags` to `[]` and `published` to `True`; defaults are applied by
`blogPayloadDefaults` below. -/
structure BlogCreatePayload where
  title : String
  slug : String
  content : String
  excerpt : Option String
  author : String
  tags : List String
  published : Bool
deriving Repr, DecidableEq

/-- A `BlogCreatePayload` with only the required fields supplied and every
optional field left at its declared default (`excerpt=None`, `tags=[]`,
`published=True`). -/
def blogPayloadDefaults (title slug content author : String) : BlogCreatePayload :=
  ⟨title, slug, content, none, author, [], true⟩

/-- `ContactPayload` (main.py): name, email, message, all required strings. -/
structure ContactPayload where
  name : String
  email : String
  message : String
deriving Repr, DecidableEq

/-! ## HTTP layer: errors, results and the persistence-operation log -/

/-- An HTTP error response (`HTTPException(status_code, detail)`). -/
structure HTTPError where
  status : Nat
  detail : String
deriving Repr, DecidableEq

/-- `{"ok": True, "id": ...}` responses of signup / blog create / contact. -/
structure OkId where
  ok : Bool
  id : String
deriving Repr, DecidableEq

/-- `{"ok": True, "message": ...}` response of login. -/
structure OkMessage where
  ok : Bool
  message : String
deriving Repr, DecidableEq

/-- One call into the persistence layer, as issued by a handler. The
`update` and `delete` constructors exist so that "this system never
updates or deletes" is a falsifiable statement: no handler ever emits
them. -/
inductive PersistOp where
  | create : String → Doc → PersistOp
  | query : String → Doc → Nat → PersistOp
  | update : String → PersistOp
  | delete : String → PersistOp
  | listCollections : PersistOp
deriving Repr, DecidableEq

/-- Is this persistence operation a mutation of stored data? -/
def PersistOp.isMutation : PersistOp → Bool
  | .create _ _ => true
  | .update _ => true
  | .delete _ => true
  | _ => false

/-- Is this persistence operation a `create_document` call? -/
def PersistOp.isCreate : PersistOp → Bool
  | .create _ _ => true
  | _ => false

/-- Run `create_document`, or raise the injected persistence fault
(any Python exception the call could throw, carried as its message). -/
def runCreate (fault : Option String) (coll : String) (rec : Doc) (db : DB) :
    Except String (String × DB) :=
  match fault with
  | some e => Except.error e
  | none => Except.ok (create_document coll rec db)

/-- Run `get_documents`, or raise the injected persistence fault. -/
def runGet (fault : Option String) (coll : String) (filter : Doc) (limit : Nat)
    (db : DB) : Except String (List Doc) :=
  match fault with
  | some e => Except.error e
  | none => Except.ok (get_documents coll filter limit db)

/-! ## Endpoint handlers (translated from `main.py`)

Each handler returns its HTTP result, the database state after the request,
and the log of persistence calls it issued (a call is logged even when the
injected fault makes it raise: the call did happen). -/

/-- `GET /` (main.py `read_root`). -/
def read_root (db : DB) : String × DB × List PersistOp :=
  ("SaaS Backend Running", db, [])

/-- A pricing plan (main.py `Plan`). -/
structure Plan where
  id : String
  name : String
  price : String
  features : List String
  highlighted : Bool
deriving Repr, DecidableEq

/-- `GET /api/plans` (main.py `get_plans`): a fixed list, no inputs. -/
def get_plans : List Plan :=
  [⟨"free", "Starter", "$0",
    ["Up to 3 projects", "Basic analytics", "Community support"], false⟩,
   ⟨"pro", "Pro", "$19",
    ["Unlimited projects", "Advanced analytics", "Priority support"], true⟩,
   ⟨"team", "Team", "$49",
    ["Team workspaces", "SSO (SAML)", "Admin controls"], false⟩]

/-- The `User` record built by `signup` (main.py line 53): the password is
stored only as its SHA-256 hex digest. -/
def signupUser (p : SignupPayload) : User :=
  ⟨p.name, p.email, sha256Hex p.password⟩

/-- `POST /api/auth/signup` (main.py `signup`): stores the hashed user,
returns `{"ok": True, "id": user_id}`; any persistence exception becomes a
500 with the exception's message. -/
def signup (p : SignupPayload) (db : DB) (fault : Option String) :
    Except HTTPError OkId × DB × List PersistOp :=
  let doc := (signupUser p).toDoc
  match runCreate fault "user" doc db with
  | Except.ok (user_id, db') => (Except.ok ⟨true, user_id⟩, db', [PersistOp.create "user" doc])
  | Except.error e => (Except.error ⟨500, e⟩, db, [PersistOp.create "user" doc])

/-- `POST /api/auth/login` (main.py `login`): looks up at most one user by
email; 401 if none exists (re-raised unwrapped past the generic handler),
500 with the message for any other persistence exception. The password is
never inspected. -/
def login (p : LoginPayload) (db : DB) (fault : Option String) :
    Except HTTPError OkMessage × DB × List PersistOp :=
  let filter : Doc := [("email", Value.str p.email)]
  let ops := [PersistOp.query "user" filter 1]
  match runGet fault "user" filter 1 db with
  | Except.error e => (Except.error ⟨500, e⟩, db, ops)
  | Except.ok [] => (Except.error ⟨401, "Invalid credentials"⟩, db, ops)
  | Except.ok (_ :: _) => (Except.ok ⟨true, "Logged in"⟩, db, ops)

/-- `POST /api/blog` (main.py `create_blog`): stores the post, returns
`{"ok": True, "id": post_id}`; 500 on persistence exception. -/
def create_blog (p : BlogCreatePayload) (db : DB) (fault : Option String) :
    Except HTTPError OkId × DB × List PersistOp :=
  let doc := (BlogPost.mk p.title p.slug p.content p.excerpt p.author p.tags p.published).toDoc
  match runCreate fault "blogpost" doc db with
  | Except.ok (post_id, db') => (Except.ok ⟨true, post_id⟩, db', [PersistOp.create "blogpost" doc])
  | Except.error e => (Except.error ⟨500, e⟩, db, [PersistOp.create "blogpost" doc])

/-- Python `dict.pop(q)`: the document with the entry under key `q` removed. -/
def removeKey (q : String) : Doc → Doc
  | [] => []
  | (k', v) :: rest =>
    if k' = q then removeKey q rest else (k', v) :: removeKey q rest

/-- `str(p.pop("_id"))` then `p["id"] = ...` (main.py lines 97-99): remove
the native `_id` field and append a plain string-valued `id` field. Native
keys are strings in this model, so Python `str()` is the identity on them. -/
def fixId (p : Doc) : Doc :=
  match p.lookup "_id" with
  | some (Value.str s) => removeKey "_id" p ++ [("id", Value.str s)]
  | some v => removeKey "_id" p ++ [("id", v)]
  | none => p

/-- `GET /api/blog` (main.py `list_blogs`): fetch up to `limit` published
posts, rewrite `_id` to `id` on each; 500 on persistence exception. -/
def list_blogs (limit : Nat) (db : DB) (fault : Option String) :
    Except HTTPError (List Doc) × DB × List PersistOp :=
  let filter : Doc := [("published", Value.bool true)]
  let ops := [PersistOp.query "blogpost" filter limit]
  match runGet fault "blogpost" filter limit db with
  | Except.error e => (Except.error ⟨500, e⟩, db, ops)
  | Except.ok posts => (Except.ok (posts.map fixId), db, ops)

/-- `list_blogs` with its declared default `limit: int = 10`. -/
def list_blogs_default (db : DB) (fault : Option String) :
    Except HTTPError (List Doc) × DB × List PersistOp :=
  list_blogs 10 db fault

/-- `POST /api/contact` (main.py `submit_contact`): stores the message,
returns `{"ok": True, "id": msg_id}`; 500 on persistence exception. -/
def submit_contact (p : ContactPayload) (db : DB) (fault : Option String) :
    Except HTTPError OkId × DB × List PersistOp :=
  let doc := (ContactMessage.mk p.name p.email p.message).toDoc
  match runCreate fault "contactmessage" doc db with
  | Except.ok (msg_id, db') => (Except.ok ⟨true, msg_id⟩, db', [PersistOp.create "contactmessage" doc])
  | Except.error e => (Except.error ⟨500, e⟩, db, [PersistOp.create "contactmessage" doc])

/-! ## Contact payload validation (FastAPI/pydantic boundary)

FastAPI validates the request body against `ContactPayload` (all three
fields required, main.py lines 105-108) before `submit_contact` runs, and
rejects a non-conforming body with a 422 client error. -/

/-- A raw contact request body: each declared field either present or absent. -/
structure RawContact where
  name : Option String
  email : Option String
  message : Option String
deriving Repr, DecidableEq

/-- Pydantic validation of `ContactPayload`: succeeds iff all required
fields are present. -/
def parseContact (r : RawContact) : Except String ContactPayload :=
  match r.name, r.email, r.message with
  | some n, some e, some m => Except.ok ⟨n, e, m⟩
  | _, _, _ => Except.error "field required"

/-- The full `POST /api/contact` route: validation, then the handler. A
validation failure is rejected with a 422 before any handler logic runs,
so no persistence call is issued and the database is untouched. -/
def contactRoute (r : RawContact) (db : DB) (fault : Option String) :
    Except HTTPError OkId × DB × List PersistOp :=
  match parseContact r with
  | Except.error e => (Except.error ⟨422, e⟩, db, [])
  | Except.ok p => submit_contact p db fault

/-! ## Diagnostic endpoint `GET /test` (main.py `test_database`) -/

/-- Decidable equality of `Except` results, needed for concrete witnesses. -/
instance {ε α : Type} [DecidableEq ε] [DecidableEq α] : DecidableEq (Except ε α)
  | Except.error e1, Except.error e2 =>
    if h : e1 = e2 then isTrue (by rw [h])
    else isFalse (by intro he; injection he; contradiction)
  | Except.error _, Except.ok _ => isFalse (by intro h; exact Except.noConfusion h)
  | Except.ok _, Except.error _ => isFalse (by intro h; exact Except.noConfusion h)
  | Except.ok a1, Except.ok a2 =>
    if h : a1 = a2 then isTrue (by rw [h])
    else isFalse (by intro he; injection he; contradiction)

/-- The state of the module-level database handle `db`: absent (`None`) or
a handle with an optional `name` attribute and a `list_collection_names()`
method that either returns the names or raises. -/
structure DBHandle where
  name : Option String
  listCollectionNames : Except String (List String)
deriving Repr, DecidableEq

/-- The two environment settings the diagnostic endpoint reads.
`os.getenv` yields `None` for an unset variable and the (possibly empty)
string for a set one. -/
structure Env where
  database_url : Option String
  database_name : Option String
deriving Repr, DecidableEq

/-- Python truthiness of an `os.getenv` result: `None` and the empty
string are falsy. -/
def truthy : Option String → Bool
  | none => false
  | some s => s.length != 0

/-- Python `s[:50]`. -/
def strTake (n : Nat) (s : String) : String := String.mk (s.data.take n)

/-- The diagnostic response dictionary; the six fields appear in the order
the source dict literal declares them. -/
structure TestResponse where
  backend : String
  database : String
  database_url : Value
  database_name : Value
  connection_status : String
  collections : List String
deriving Repr, DecidableEq

/-- The response rendered as the JSON object the endpoint returns. -/
def TestResponse.toDoc (r : TestResponse) : Doc :=
  [("backend", Value.str r.backend), ("database", Value.str r.database),
   ("database_url", r.database_url), ("database_name", r.database_name),
   ("connection_status", Value.str r.connection_status),
   ("collections", Value.strList r.collections)]

/-- `GET /test` (main.py `test_database`): every failure of
`list_collection_names` is caught inside the handler and recorded as text
in the `database` field; the `database_url` / `database_name` fields are
unconditionally overwritten at the end with environment-presence markers. -/
def test_database (hdb : Option DBHandle) (env : Env) : TestResponse :=
  let r0 : TestResponse :=
    ⟨"✅ Running", "❌ Not Available", Value.null, Value.null, "Not Connected", []⟩
  let r1 :=
    match hdb with
    | some hd =>
      let r := { r0 with
        database := "✅ Available"
        database_url := Value.str "✅ Configured"
        database_name :=
          match hd.name with
          | some n => Value.str n
          | none => Value.str "✅ Connected"
        connection_status := "Connected" }
      match hd.listCollectionNames with
      | Except.ok cols =>
        { r with collections := cols.take 10, database := "✅ Connected & Working" }
      | Except.error e =>
        { r with database := "⚠️  Connected but Error: " ++ strTake 50 e }
    | none => { r0 with database := "⚠️  Available but not initialized" }
  { r1 with
    database_url := Value.str (if truthy env.database_url then "✅ Set" else "❌ Not Set")
    database_name := Value.str (if truthy env.database_name then "✅ Set" else "❌ Not Set") }

/-- The `/test` route: the handler raises no `HTTPException` and catches
every internal failure, so the route always answers `200 OK`. Listing
collection names is its only persistence call, made only when a handle
exists; it never mutates the database. -/
def testRoute (hdb : Option DBHandle) (env : Env) (db : DB) :
    Except HTTPError TestResponse × DB × List PersistOp :=
  (Except.ok (test_database hdb env), db,
   match hdb with
   | some _ => [PersistOp.listCollections]
   | none => [])

/-! ## The full request surface, for whole-system invariants -/

/-- One HTTP request to any endpoint of the app. -/
inductive Request where
  | root : Request
  | plans : Request
  | signupReq : SignupPayload → Request
  | loginReq : LoginPayload → Request
  | createBlogReq : BlogCreatePayload → Request
  | listBlogsReq : Nat → Request
  | contactReq : RawContact → Request
  | testReq : Option DBHandle → Env → Request

/-- Dispatch a request to its handler; the resulting database state and
persistence-operation log. -/
def handleRequest (req : Request) (db : DB) (fault : Option String) :
    DB × List PersistOp :=
  match req with
  | Request.root => (read_root db).2
  | Request.plans => (db, [])
  | Request.signupReq p => (signup p db fault).2
  | Request.loginReq p => (login p db fault).2
  | Request.createBlogReq p => (create_blog p db fault).2
  | Request.listBlogsReq n => (list_blogs n db fault).2
  | Request.contactReq r => (contactRoute r db fault).2
  | Request.testReq hdb env => (testRoute hdb env db).2

/-- How many `create_document` calls each endpoint is specified to make:
exactly one for signup, blog create and a validated contact submission,
none anywhere else. -/
def expectedCreateCount (req : Request) : Nat :=
  match req with
  | Request.signupReq _ => 1
  | Request.createBlogReq _ => 1
  | Request.contactReq r =>
    match parseContact r with
    | Except.ok _ => 1
    | Except.error _ => 0
  | _ => 0

/-- The published posts of the blogpost collection, in insertion order:
what `get_documents("blogpost", {"published": True}, limit)` returns
before truncation. -/
def publishedPosts (db : DB) : List Doc :=
  ((db.docs.filter fun cd => cd.1 == "blogpost").map fun cd => cd.2).filter
    fun d => matchesFilter [("published", Value.bool true)] d

/-- Is `c` a lower-case hexadecimal digit (`0`-`9`, `a`-`f`)? -/
def isHexChar (c : Char) : Bool :=
  (48 ≤ c.toNat && c.toNat ≤ 57) || (97 ≤ c.toNat && c.toNat ≤ 102)

/-! ## Helper lemmas -/

theorem toHexFixed_length (l n : Nat) : (toHexFixed l n).length = l := by
  induction l generalizing n with
  | zero => rfl
  | succ k ih => simp [toHexFixed, ih]

theorem sha256Hex_length (s : String) : (sha256Hex s).length = 64 := by
  simp [sha256Hex, String.length, List.flatMap_cons, List.flatMap_nil,
    List.length_append, toHexFixed_length]

theorem isHexChar_hexDigit (m : Nat) (h : m < 16) : isHexChar (hexDigit m) = true := by
  interval_cases m <;> decide

theorem mem_toHexFixed_isHex (l n : Nat) (c : Char) (h : c ∈ toHexFixed l n) :
    isHexChar c = true := by
  induction l generalizing n with
  | zero => simp [toHexFixed] at h
  | succ k ih =>
    simp only [toHexFixed, List.mem_append, List.mem_singleton] at h
    rcases h with h | h
    · exact ih _ h
    · rw [h]
      exact isHexChar_hexDigit _ (Nat.mod_lt _ (by decide))

theorem sha256Hex_all_hex (s : String) : (sha256Hex s).data.all isHexChar = true := by
  rw [List.all_eq_true]
  intro c hc
  simp only [sha256Hex, String.data] at hc
  simp only [List.flatMap_cons, List.flatMap_nil, List.append_nil, List.mem_append] at hc
  rcases hc with h | h | h | h | h | h | h | h <;> exact mem_toHexFixed_isHex _ _ _ h

theorem Doc.lookup_append (d1 d2 : Doc) (k : String) :
    Doc.lookup (d1 ++ d2) k =
      match d1.lookup k with
      | some v => some v
      | none => d2.lookup k := by
  induction d1 with
  | nil => simp [Doc.lookup]
  | cons kv rest ih =>
    obtain ⟨k', v⟩ := kv
    by_cases h : k' = k <;> simp [Doc.lookup, h, ih]

theorem Doc.lookup_removeKey_ne (d : Doc) (k q : String) (h : k ≠ q) :
    Doc.lookup (removeKey q d) k = d.lookup k := by
  induction d with
  | nil => rfl
  | cons kv rest ih =>
    obtain ⟨k', v⟩ := kv
    by_cases hq : k' = q
    · subst hq
      have hk : ¬k' = k := fun he => h he.symm
      simp [removeKey, Doc.lookup, hk, ih]
    · by_cases hk : k' = k
      · subst hk
        simp [removeKey, Doc.lookup, hq, ih]
      · simp [removeKey, Doc.lookup, hq, hk, ih]

theorem fixId_lookup_ne (d : Doc) (k : String) (h1 : k ≠ "_id") (h2 : k ≠ "id") :
    Doc.lookup (fixId d) k = d.lookup k := by
  unfold fixId
  cases hid : d.lookup "_id" with
  | none => rfl
  | some v =>
    have hrem := Doc.lookup_removeKey_ne d k "_id" h1
    have hsingle : ∀ w : Value, Doc.lookup [("id", w)] k = none := by
      intro w
      show (if "id" = k then some w else Doc.lookup [] k) = none
      rw [if_neg fun he => h2 he.symm]
      rfl
    cases v <;>
      simp only [Doc.lookup_append, hrem] <;>
      cases hdk : d.lookup k <;> simp [hsingle]

/-- FIPS 180-4 test vector: the one-block message `"abc"`. -/
theorem sha256Hex_abc :
    sha256Hex "abc" = "ba7816bf8f01cfea414140de5dae2223b00361a396177a9cb410ff61f20015ad" := by
  decide

/-- FIPS 180-4 test vector: the empty message. -/
theorem sha256Hex_empty :
    sha256Hex "" = "e3b0c44298fc1c149afbf4c8996fb92427ae41e4649b934ca495991b7852b855" := by
  decide

theorem login_ops (p : LoginPayload) (db : DB) (fault : Option String) :
    (login p db fault).2.2 = [PersistOp.query "user" [("email", Value.str p.email)] 1] := by
  cases fault with
  | some e => rfl
  | none =>
    cases hget : get_documents "user" [("email", Value.str p.email)] 1 db <;>
      simp [login, runGet, hget]

/-! ## Claim theorems -/

/-- C1: for every signup payload, the stored User document's
`password_hash` is exactly the SHA-256 hex digest of the supplied
plaintext password — and not the plaintext, for any password that is not
itself a 64-character lower-case-hex string — and when the persistence
write succeeds the handler returns ok together with the identifier
generated by `create_document`. -/
theorem signup_stores_password_digest (p : SignupPayload) (db : DB) :
    signup p db none =
      (Except.ok ⟨true, toString db.counter⟩,
       ⟨db.docs ++
          [("user", ("_id", Value.str (toString db.counter)) :: (signupUser p).toDoc)],
        db.counter + 1⟩,
       [PersistOp.create "user" (signupUser p).toDoc]) ∧
    Doc.lookup (signupUser p).toDoc "password_hash" =
      some (Value.str (sha256Hex p.password)) ∧
    (p.password.length ≠ 64 ∨ p.password.data.all isHexChar = false →
      sha256Hex p.password ≠ p.password) := by
  refine ⟨rfl, ?_, ?_⟩
  · simp [signupUser, User.toDoc, Doc.lookup]
  · rintro (hlen | hhex) heq
    · exact hlen (by rw [← heq, sha256Hex_length])
    · rw [← heq, sha256Hex_all_hex] at hhex
      exact absurd hhex (by decide)

/-- Witness for C1: a concrete password of length other than 64 is never
stored verbatim. -/
theorem signup_stores_password_digest_witness :
    ("pw".length ≠ 64 ∨ "pw".data.all isHexChar = false) ∧ sha256Hex "pw" ≠ "pw" :=
  ⟨Or.inl (by decide),
   (signup_stores_password_digest ⟨"n", "e", "pw"⟩ ⟨[], 0⟩).2.2 (Or.inl (by decide))⟩

/-- C2: login's outcome never depends on the supplied password, and when a
user document with the requested email exists, login answers ok no matter
which password was sent. -/
theorem login_ignores_password (db : DB) (fault : Option String) (e p1 p2 : String) :
    login ⟨e, p1⟩ db fault = login ⟨e, p2⟩ db fault ∧
    (∀ d : Doc, ("user", d) ∈ db.docs → d.lookup "email" = some (Value.str e) →
      (login ⟨e, p1⟩ db none).1 = Except.ok ⟨true, "Logged in"⟩) := by
  refine ⟨rfl, ?_⟩
  intro d hmem hlook
  have hd : d ∈ ((db.docs.filter fun cd => cd.1 == "user").map fun cd => cd.2) :=
    List.mem_map.mpr ⟨("user", d), List.mem_filter.mpr ⟨hmem, by simp⟩, rfl⟩
  have hmatch : matchesFilter [("email", Value.str e)] d = true := by
    simp [matchesFilter, hlook]
  have hmem2 : d ∈ (((db.docs.filter fun cd => cd.1 == "user").map fun cd => cd.2).filter
      fun d2 => matchesFilter [("email", Value.str e)] d2) :=
    List.mem_filter.mpr ⟨hd, hmatch⟩
  cases hget : get_documents "user" [("email", Value.str e)] 1 db with
  | nil =>
    exfalso
    unfold get_documents at hget
    cases hl : (((db.docs.filter fun cd => cd.1 == "user").map fun cd => cd.2).filter
        fun d2 => matchesFilter [("email", Value.str e)] d2) with
    | nil =>
      rw [hl] at hmem2
      exact List.not_mem_nil _ hmem2
    | cons x xs =>
      rw [hl] at hget
      simp [List.take] at hget
  | cons x xs => simp [login, runGet, hget]

/-- Witness for C2: on a store holding a user with the requested email,
login succeeds with a password that was never set anywhere. -/
theorem login_ignores_password_witness :
    (login ⟨"a@b.c", "x"⟩ ⟨[("user", [("email", Value.str "a@b.c")])], 1⟩ none).1 =
      Except.ok ⟨true, "Logged in"⟩ :=
  (login_ignores_password ⟨[("user", [("email", Value.str "a@b.c")])], 1⟩ none
      "a@b.c" "x" "y").2
    [("email", Value.str "a@b.c")] (by decide) (by decide)

/-- C3: a login whose email matches no stored user fails with 401; any
persistence-layer failure fails with a 500 carrying the exception's
message; and without a persistence failure no error other than the 401 is
possible, so the 401 is never converted into a 500. -/
theorem login_error_paths (p : LoginPayload) (db : DB) :
    (∀ e, login p db (some e) =
      (Except.error ⟨500, e⟩, db,
       [PersistOp.query "user" [("email", Value.str p.email)] 1])) ∧
    (get_documents "user" [("email", Value.str p.email)] 1 db = [] →
      (login p db none).1 = Except.error ⟨401, "Invalid credentials"⟩) ∧
    (∀ err, (login p db none).1 = Except.error err → err.status = 401) := by
  refine ⟨fun e => rfl, ?_, ?_⟩
  · intro h
    simp [login, runGet, h]
  · intro err herr
    cases hget : get_documents "user" [("email", Value.str p.email)] 1 db with
    | nil =>
      rw [show (login p db none).1 = Except.error ⟨401, "Invalid credentials"⟩ by
        simp [login, runGet, hget]] at herr
      injection herr with h2
      rw [← h2]
    | cons x xs =>
      rw [show (login p db none).1 = Except.ok ⟨true, "Logged in"⟩ by
        simp [login, runGet, hget]] at herr
      exact Except.noConfusion herr

/-- Witness for C3: on an empty store every login fails with the 401. -/
theorem login_error_paths_witness :
    (login ⟨"a@b.c", "x"⟩ ⟨[], 0⟩ none).1 = Except.error ⟨401, "Invalid credentials"⟩ :=
  (login_error_paths ⟨"a@b.c", "x"⟩ ⟨[], 0⟩).2.1 (by decide)

/-- C6: the plans endpoint takes no input and reads no state (it is a
closed term), and returns exactly three plans with identifiers free, pro,
team in that order, of which only pro is highlighted. -/
theorem get_plans_fixed :
    get_plans.length = 3 ∧
    get_plans.map Plan.id = ["free", "pro", "team"] ∧
    get_plans.map Plan.highlighted = [false, true, false] := by decide

/-- C4: the blog list handler queries the persistence layer with exactly
the `published = true` filter and the requested limit (10 when the request
leaves it at the declared default), and returns at most `limit` records,
each of which carries `published = true`. -/
theorem list_blogs_limit (limit : Nat) (db : DB) (fault : Option String) :
    (list_blogs limit db fault).2.2 =
      [PersistOp.query "blogpost" [("published", Value.bool true)] limit] ∧
    list_blogs_default db fault = list_blogs 10 db fault ∧
    (∀ l, (list_blogs limit db none).1 = Except.ok l →
      l.length ≤ limit ∧ ∀ d ∈ l, Doc.lookup d "published" = some (Value.bool true)) := by
  refine ⟨?_, rfl, ?_⟩
  · cases fault <;> rfl
  · intro l hl
    have hl2 : l = (get_documents "blogpost" [("published", Value.bool true)] limit db).map fixId := by
      have hr : (list_blogs limit db none).1 =
          Except.ok ((get_documents "blogpost" [("published", Value.bool true)] limit db).map fixId) := rfl
      rw [hr] at hl
      injection hl with h2
      exact h2.symm
    subst hl2
    constructor
    · rw [List.length_map]
      exact List.length_take_le _ _
    · intro d hd
      rcases List.mem_map.mp hd with ⟨d0, hd0, rfl⟩
      have hd0' : d0 ∈ (((db.docs.filter fun cd => cd.1 == "blogpost").map fun cd => cd.2).filter
          fun d2 => matchesFilter [("published", Value.bool true)] d2) := by
        unfold get_documents at hd0
        exact List.mem_of_mem_take hd0
      have hmatch := (List.mem_filter.mp hd0').2
      simp only [matchesFilter, List.all_cons, List.all_nil, Bool.and_true,
        beq_iff_eq] at hmatch
      rw [fixId_lookup_ne d0 "published" (by decide) (by decide), hmatch]

/-- Witness for C4: with three stored published posts and limit 2, exactly
two records come back, both published. -/
theorem list_blogs_limit_witness :
    ([[("published", Value.bool true)], [("published", Value.bool true)]] : List Doc).length ≤ 2 ∧
    ∀ d ∈ ([[("published", Value.bool true)], [("published", Value.bool true)]] : List Doc),
      Doc.lookup d "published" = some (Value.bool true) :=
  (list_blogs_limit 2
      ⟨[("blogpost", [("published", Value.bool true)]),
        ("blogpost", [("published", Value.bool true)]),
        ("blogpost", [("published", Value.bool true)])], 3⟩ none).2.2
    [[("published", Value.bool true)], [("published", Value.bool true)]] (by decide)

/-- C7: a contact submission with all three fields present stores one
ContactMessage record and answers ok with the generated identifier, while
a submission without `message` is rejected with a client error before the
handler runs: the database is untouched and no persistence call is
issued. -/
theorem contact_validation (r : RawContact) (db : DB) :
    (r.message = none →
      contactRoute r db none = (Except.error ⟨422, "field required"⟩, db, [])) ∧
    (∀ n e m, r = ⟨some n, some e, some m⟩ →
      contactRoute r db none =
        (Except.ok ⟨true, toString db.counter⟩,
         ⟨db.docs ++ [("contactmessage",
            ("_id", Value.str (toString db.counter)) :: (ContactMessage.mk n e m).toDoc)],
          db.counter + 1⟩,
         [PersistOp.create "contactmessage" (ContactMessage.mk n e m).toDoc])) := by
  constructor
  · intro h
    obtain ⟨nm, em, ms⟩ := r
    have hms : ms = none := h
    subst hms
    cases nm <;> cases em <;> rfl
  · rintro n e m rfl
    rfl

/-- Witness for C7: one rejected and one accepted concrete submission. -/
theorem contact_validation_witness :
    contactRoute ⟨some "a", some "a@b.c", none⟩ ⟨[], 0⟩ none =
      (Except.error ⟨422, "field required"⟩, ⟨[], 0⟩, []) ∧
    contactRoute ⟨some "a", some "a@b.c", some "hi"⟩ ⟨[], 0⟩ none =
      (Except.ok ⟨true, "0"⟩,
       ⟨[("contactmessage",
          ("_id", Value.str "0") :: (ContactMessage.mk "a" "a@b.c" "hi").toDoc)], 1⟩,
       [PersistOp.create "contactmessage" (ContactMessage.mk "a" "a@b.c" "hi").toDoc]) :=
  ⟨(contact_validation ⟨some "a", some "a@b.c", none⟩ ⟨[], 0⟩).1 rfl,
   (contact_validation ⟨some "a", some "a@b.c", some "hi"⟩ ⟨[], 0⟩).2
     "a" "a@b.c" "hi" rfl⟩

/-- C8: across the whole request surface, the number of persistence
mutations a request performs equals the specified create count (one for
signup, blog create and a validated contact submission, zero elsewhere),
and every mutation ever performed is a `create_document` call — never an
update or delete. -/
theorem single_create_invariant (req : Request) (db : DB) (fault : Option String) :
    ((handleRequest req db fault).2.filter PersistOp.isMutation).length =
      expectedCreateCount req ∧
    ∀ op ∈ (handleRequest req db fault).2, op.isMutation = true → op.isCreate = true := by
  cases req with
  | root => exact ⟨rfl, fun op hop _ => absurd hop (List.not_mem_nil op)⟩
  | plans => exact ⟨rfl, fun op hop _ => absurd hop (List.not_mem_nil op)⟩
  | signupReq p =>
    cases fault <;>
      exact ⟨rfl, fun op hop _ => by rw [List.mem_singleton.mp hop]; rfl⟩
  | loginReq p =>
    have hops : (handleRequest (Request.loginReq p) db fault).2 =
        [PersistOp.query "user" [("email", Value.str p.email)] 1] := login_ops p db fault
    rw [hops]
    exact ⟨rfl, fun op hop hmut => by
      rw [List.mem_singleton.mp hop] at hmut
      exact Bool.noConfusion hmut⟩
  | createBlogReq p =>
    cases fault <;>
      exact ⟨rfl, fun op hop _ => by rw [List.mem_singleton.mp hop]; rfl⟩
  | listBlogsReq n =>
    cases fault <;>
      exact ⟨rfl, fun op hop hmut => by
        rw [List.mem_singleton.mp hop] at hmut
        exact Bool.noConfusion hmut⟩
  | contactReq r =>
    obtain ⟨nm, em, ms⟩ := r
    cases nm <;> cases em <;> cases ms <;> cases fault <;>
      first
        | exact ⟨rfl, fun op hop _ => absurd hop (List.not_mem_nil op)⟩
        | exact ⟨rfl, fun op hop _ => by rw [List.mem_singleton.mp hop]; rfl⟩
  | testReq hdb env =>
    cases hdb <;>
      first
        | exact ⟨rfl, fun op hop _ => absurd hop (List.not_mem_nil op)⟩
        | exact ⟨rfl, fun op hop hmut => by
            rw [List.mem_singleton.mp hop] at hmut
            exact Bool.noConfusion hmut⟩

/-- Witness for C8: a concrete login request performs zero mutations. -/
theorem single_create_invariant_witness :
    ((handleRequest (Request.loginReq ⟨"e", "p"⟩) ⟨[], 0⟩ none).2.filter
        PersistOp.isMutation).length = expectedCreateCount (Request.loginReq ⟨"e", "p"⟩) :=
  (single_create_invariant (Request.loginReq ⟨"e", "p"⟩) ⟨[], 0⟩ none).1

/-- C5: creating a blog post with `published = true` (the declared
default) and then listing with a limit that covers all published posts
yields a list containing the new post, its native `_id` removed and
replaced by a string-valued plain `id` field; on every listed record the
rewrite leaves all fields other than `_id`/`id` unchanged. -/
theorem create_then_list (p : BlogCreatePayload) (db : DB) (limit : Nat)
    (hpub : p.published = true)
    (hlim : (publishedPosts (create_blog p db none).2.1).length ≤ limit) :
    ∃ id l,
      (create_blog p db none).1 = Except.ok ⟨true, id⟩ ∧
      (list_blogs limit (create_blog p db none).2.1 none).1 = Except.ok l ∧
      ((BlogPost.mk p.title p.slug p.content p.excerpt p.author p.tags p.published).toDoc ++
        [("id", Value.str id)]) ∈ l ∧
      (∀ d0 ∈ get_documents "blogpost" [("published", Value.bool true)] limit
          (create_blog p db none).2.1, ∀ k, k ≠ "_id" → k ≠ "id" →
        Doc.lookup (fixId d0) k = d0.lookup k) := by
  have hmatch : matchesFilter [("published", Value.bool true)]
      (("_id", Value.str (toString db.counter)) ::
        (BlogPost.mk p.title p.slug p.content p.excerpt p.author p.tags p.published).toDoc) = true := by
    simp [matchesFilter, Doc.lookup, BlogPost.toDoc, hpub]
  have hmemP : (("_id", Value.str (toString db.counter)) ::
      (BlogPost.mk p.title p.slug p.content p.excerpt p.author p.tags p.published).toDoc) ∈
      publishedPosts (create_blog p db none).2.1 := by
    unfold publishedPosts
    refine List.mem_filter.mpr ⟨?_, hmatch⟩
    refine List.mem_map.mpr
      ⟨("blogpost", ("_id", Value.str (toString db.counter)) ::
          (BlogPost.mk p.title p.slug p.content p.excerpt p.author p.tags p.published).toDoc),
       ?_, rfl⟩
    refine List.mem_filter.mpr ⟨?_, by simp⟩
    show _ ∈ db.docs ++ [("blogpost", ("_id", Value.str (toString db.counter)) ::
      (BlogPost.mk p.title p.slug p.content p.excerpt p.author p.tags p.published).toDoc)]
    exact List.mem_append_right _ (List.mem_singleton.mpr rfl)
  have hgd : get_documents "blogpost" [("published", Value.bool true)] limit
      (create_blog p db none).2.1 = publishedPosts (create_blog p db none).2.1 :=
    List.take_of_length_le hlim
  have hfix : fixId (("_id", Value.str (toString db.counter)) ::
      (BlogPost.mk p.title p.slug p.content p.excerpt p.author p.tags p.published).toDoc) =
      (BlogPost.mk p.title p.slug p.content p.excerpt p.author p.tags p.published).toDoc ++
        [("id", Value.str (toString db.counter))] := by
    simp [fixId, Doc.lookup, removeKey, BlogPost.toDoc]
  refine ⟨toString db.counter, _, rfl, rfl, ?_, ?_⟩
  · rw [hgd, ← hfix]
    exact List.mem_map_of_mem fixId hmemP
  · intro d0 _ k h1 h2
    exact fixId_lookup_ne d0 k h1 h2

/-- Witness for C5: a concrete post created on an empty store shows up in
the subsequent listing under a plain `id` field. -/
theorem create_then_list_witness :
    ∃ id l,
      (create_blog (blogPayloadDefaults "t" "s" "c" "a") ⟨[], 0⟩ none).1 =
        Except.ok ⟨true, id⟩ ∧
      (list_blogs 10 (create_blog (blogPayloadDefaults "t" "s" "c" "a") ⟨[], 0⟩ none).2.1
          none).1 = Except.ok l ∧
      ((BlogPost.mk (blogPayloadDefaults "t" "s" "c" "a").title
          (blogPayloadDefaults "t" "s" "c" "a").slug
          (blogPayloadDefaults "t" "s" "c" "a").content
          (blogPayloadDefaults "t" "s" "c" "a").excerpt
          (blogPayloadDefaults "t" "s" "c" "a").author
          (blogPayloadDefaults "t" "s" "c" "a").tags
          (blogPayloadDefaults "t" "s" "c" "a").published).toDoc ++
        [("id", Value.str id)]) ∈ l ∧
      (∀ d0 ∈ get_documents "blogpost" [("published", Value.bool true)] 10
          (create_blog (blogPayloadDefaults "t" "s" "c" "a") ⟨[], 0⟩ none).2.1,
        ∀ k, k ≠ "_id" → k ≠ "id" → Doc.lookup (fixId d0) k = d0.lookup k) :=
  create_then_list (blogPayloadDefaults "t" "s" "c" "a") ⟨[], 0⟩ 10 (by decide) (by decide)

/-- C9 counterexample: with `DATABASE_URL` present in the environment but
equal to the empty string (`os.getenv` returns `""`, which is falsy), the
diagnostic reports `❌ Not Set`: the field reports truthiness, not
presence, so it can deny a present setting. -/
theorem test_database_env_presence_counterexample :
    (some "" : Option String).isSome = true ∧
    (test_database none ⟨some "", none⟩).database_url = Value.str "❌ Not Set" := by
  exact ⟨rfl, rfl⟩

/-- C9 (amended): the diagnostic response has exactly the six keys in
declaration order, its collections list holds at most 10 names, and its
`database_url` / `database_name` fields report whether the corresponding
environment setting is present AND non-empty (Python truthiness of the
`os.getenv` result), independent of the handle state. -/
theorem test_database_shape (hdb : Option DBHandle) (env : Env) :
    (test_database hdb env).toDoc.map Prod.fst =
      ["backend", "database", "database_url", "database_name",
       "connection_status", "collections"] ∧
    (test_database hdb env).collections.length ≤ 10 ∧
    (test_database hdb env).database_url =
      Value.str (if truthy env.database_url then "✅ Set" else "❌ Not Set") ∧
    (test_database hdb env).database_name =
      Value.str (if truthy env.database_name then "✅ Set" else "❌ Not Set") := by
  refine ⟨rfl, ?_, rfl, rfl⟩
  cases hdb with
  | none => simp [test_database]
  | some hd =>
    cases hcol : hd.listCollectionNames with
    | ok cols =>
      have hc : (test_database (some hd) env).collections = cols.take 10 := by
        simp [test_database, hcol]
      rw [hc]
      exact List.length_take_le _ _
    | error e => simp [test_database, hcol]

/-- C10: the diagnostic route is total — it answers `200 OK` for every
handle state, including a missing handle and a raising collection listing,
whose failure text lands only in the `database` field — and the
`database_url` / `database_name` fields always end up as one of the two
environment-presence markers, never the actual connection URL or database
name. -/
theorem test_route_never_errors (hdb : Option DBHandle) (env : Env) (db : DB) :
    (testRoute hdb env db).1 = Except.ok (test_database hdb env) ∧
    ((test_database hdb env).database_url = Value.str "✅ Set" ∨
     (test_database hdb env).database_url = Value.str "❌ Not Set") ∧
    ((test_database hdb env).database_name = Value.str "✅ Set" ∨
     (test_database hdb env).database_name = Value.str "❌ Not Set") ∧
    (∀ hd e, hdb = some hd → hd.listCollectionNames = Except.error e →
      (test_database hdb env).database = "⚠️  Connected but Error: " ++ strTake 50 e) := by
  refine ⟨rfl, ?_, ?_, ?_⟩
  · by_cases htr : truthy env.database_url = true
    · left
      show Value.str (if truthy env.database_url = true then "✅ Set" else "❌ Not Set") = _
      rw [if_pos htr]
    · right
      show Value.str (if truthy env.database_url = true then "✅ Set" else "❌ Not Set") = _
      rw [if_neg htr]
  · by_cases htr : truthy env.database_name = true
    · left
      show Value.str (if truthy env.database_name = true then "✅ Set" else "❌ Not Set") = _
      rw [if_pos htr]
    · right
      show Value.str (if truthy env.database_name = true then "✅ Set" else "❌ Not Set") = _
      rw [if_neg htr]
  · intro hd e h1 h2
    subst h1
    simp [test_database, h2]

/-- Witness for C10: a handle whose collection listing raises still yields
a normal response, the failure captured as text in the database field. -/
theorem test_route_never_errors_witness :
    (test_database (some ⟨none, Except.error "boom"⟩) ⟨none, none⟩).database =
      "⚠️  Connected but Error: " ++ strTake 50 "boom" :=
  (test_route_never_errors (some ⟨none, Except.error "boom"⟩) ⟨none, none⟩ ⟨[], 0⟩).2.2.2
    ⟨none, Except.error "boom"⟩ "boom" rfl rfl

end Backend
